import Mathlib

/-!
Verification development for the starlette-inertia repository.

The definitions below are a shallow embedding of
`src/starlette_inertia/inertia.py` (the current implementation, which the
test suite imports); `src/fastapi_inertia/inertia.py` is a historical draft
of the same middleware and is noted where the two differ.

Modelling conventions:
* ASGI header lists are `List (String × String)`.  Per the ASGI spec and
  starlette, header names are stored lowercased, and starlette lowercases
  every lookup key before comparing it against the stored names; we
  therefore write all header keys as lowercase string literals.
* Response bodies in this repository are text, so bodies are `String` and
  byte lengths are UTF-8 byte sizes (Python `len(text.encode())`).
* JSON serialization is delegated by the source to `json.dumps` with
  separators `(",", ":")`; `PageObject.render` below reproduces it for the
  one payload shape the program emits (string-valued props, which is the
  only shape the repository constructs in its code and tests).
* Python exceptions (`ValueError`, `AttributeError`) are modelled as
  `Except.error` with the exception text; an error aborts the response, so
  no events reach the transport from the erroring call.
-/

namespace StarletteInertia

/-- Lookup in a starlette header list (`Headers.get`): first entry whose
(lowercase) name equals the (lowercased) key, if any. -/
def getHeader (hs : List (String × String)) (k : String) : Option String :=
  (hs.find? (fun p => p.fst == k)).map Prod.snd

/-- Membership test in a starlette header list (`key in headers`). -/
def hasHeader (hs : List (String × String)) (k : String) : Bool :=
  hs.any (fun p => p.fst == k)

/-- Deletion from a starlette header list (`MutableHeaders.__delitem__`):
removes every entry with the given name. -/
def removeHeader (hs : List (String × String)) (k : String) :
    List (String × String) :=
  hs.filter (fun p => p.fst != k)

/-- Assignment in a starlette header list (`MutableHeaders.__setitem__`):
replace the first entry with the given name in place, drop any further
entries with that name, or append if the name is absent. -/
def setHeader : List (String × String) → String → String →
    List (String × String)
  | [], k, v => [(k, v)]
  | p :: rest, k, v =>
    if p.fst == k then (k, v) :: rest.filter (fun q => q.fst != k)
    else p :: setHeader rest k v

/-- The value written by `MutableHeaders.add_vary_header`: joins the new
token onto the existing `vary` value with a comma, if one exists. -/
def addVaryValue (existing : Option String) (v : String) : String :=
  match existing with
  | none => v
  | some e => e ++ ", " ++ v

/-- `MutableHeaders.add_vary_header`. -/
def addVaryHeader (hs : List (String × String)) (v : String) :
    List (String × String) :=
  setHeader hs "vary" (addVaryValue (getHeader hs "vary") v)

/-- Immutable snapshot of the inbound request, as read by the middleware:
`scope["method"]`, `request.url.path`, `str(request.url)` and the request
header list. -/
structure Request where
  method : String
  path : String
  url : String
  headers : List (String × String)

/-- Python truthiness of `request.headers.get(name)`: an absent header
(`None`) and an empty string are both falsy. -/
def truthyHeader : Option String → Bool
  | none => false
  | some s => s != ""

/-- Outcome of `InertiaMiddleware.__call__` before the downstream app is
(or is not) invoked. -/
inductive MiddlewareAction where
  | passThroughHtml
  | missingHeader400
  | stale409 (location : String)
  | passThrough
deriving DecidableEq

/-- The request classification performed by `InertiaMiddleware.__call__`
(`src/starlette_inertia/inertia.py`, lines 117-147): non-AJAX requests pass
through with HTML rendering; AJAX requests without a truthy `x-inertia`
marker short-circuit with 400; GET requests whose `x-inertia-version`
header differs from the server version (an absent header compares unequal
to any string, as `None != server_version` does in Python) short-circuit
with 409 carrying the full request URL; everything else passes through.
The historical draft `src/fastapi_inertia/inertia.py` line 80 additionally
requires `client_version` to be truthy before the 409; the current
implementation does not. -/
def middlewareClassify (serverVersion : String) (req : Request) :
    MiddlewareAction :=
  if getHeader req.headers "x-requested-with" != some "XMLHttpRequest" then
    .passThroughHtml
  else if !truthyHeader (getHeader req.headers "x-inertia") then
    .missingHeader400
  else if req.method == "GET"
      && (getHeader req.headers "x-inertia-version" != some serverVersion) then
    .stale409 req.url
  else
    .passThrough

/-- Whether the middleware invokes the wrapped downstream application for
the given classification. -/
def downstreamCalled : MiddlewareAction → Bool
  | .passThroughHtml => true
  | .passThrough => true
  | .missingHeader400 => false
  | .stale409 _ => false

/-- One frame of the two-phase ASGI response stream:
`http.response.start` or `http.response.body`.  Body frames carry the
headers entry that `InertiaResponder.send` adds to every message dict
(an empty list for frames produced by starlette responses). -/
inductive Message where
  | start (status : Nat) (headers : List (String × String))
  | body (content : String) (moreBody : Bool)
      (headers : List (String × String))
deriving DecidableEq

/-- The event list emitted by a buffered `starlette.responses.Response`:
one start frame whose raw headers are the caller-provided headers followed
by the computed `content-length` and `content-type`, then one final body
frame. -/
def responseEvents (status : Nat) (bodyText : String)
    (extraHeaders : List (String × String)) (contentType : String) :
    List Message :=
  [.start status
      (extraHeaders ++
        [("content-length", toString bodyText.utf8ByteSize),
         ("content-type", contentType)]),
   .body bodyText false []]

/-- The `PlainTextResponse` the middleware produces for an AJAX request
missing the Inertia marker. -/
def missing400Events : List Message :=
  responseEvents 400 "Inertia headers not found." []
    "text/plain; charset=utf-8"

/-- The `PlainTextResponse` the middleware produces for a stale GET,
carrying the `X-Inertia-Location` header. -/
def stale409Events (location : String) : List Message :=
  responseEvents 409 "Inertia version does not match"
    [("x-inertia-location", location)] "text/plain; charset=utf-8"

/-- The locally produced short-circuit response, when the classification
calls for one.  Both responses are sent through the wrapped
`InertiaResponder.send`, not directly to the transport. -/
def middlewareShortCircuit (serverVersion : String) (req : Request) :
    Option (List Message) :=
  match middlewareClassify serverVersion req with
  | .missingHeader400 => some missing400Events
  | .stale409 loc => some (stale409Events loc)
  | _ => none

/-- Per-response scratch of `InertiaResponder`: the `started` flag and the
deferred start message (`self.message`), which `__init__` leaves unset
(modelled as `none`). -/
structure RespState where
  started : Bool
  message : Option Message
deriving DecidableEq

/-- The state of a fresh `InertiaResponder`. -/
def initRespState : RespState := { started := false, message := none }

/-- The per-request data `InertiaResponder.send` closes over: the request
object (method, path and headers — `send` never reads the request headers,
which matters for the `Vary` branch), the resolved asset version, and the
configured template rendered as an abstract function of the body message
headers and the body text (template loading and rendering are delegated to
jinja2 by the source). -/
structure SendCtx where
  method : String
  inertiaVersion : String
  reqPath : String
  reqHeaders : List (String × String)
  renderTemplate : List (String × String) → String → String

/-- The context `InertiaMiddleware.__call__` builds for a request. -/
def ctxOf (serverVersion : String) (req : Request)
    (tmpl : List (String × String) → String → String) : SendCtx :=
  { method := req.method
    inertiaVersion := serverVersion
    reqPath := req.path
    reqHeaders := req.headers
    renderTemplate := tmpl }

/-- The redirect-coercion test of `InertiaResponder.send`:
`request.method in {"PUT", "PATCH", "DELETE"} and message["status"] == 302`. -/
def redirectCoerce (method : String) (status : Nat) : Bool :=
  (["PUT", "PATCH", "DELETE"].contains method) && (status == 302)

/-- The header rewriting `InertiaResponder.send` performs on a deferred
(non-redirect) start message: set `x-inertia`, set the content type, add
`Accept` to `Vary` when emitting JSON and neither partial-reload header
name occurs in the message headers being rewritten, then record the
asset version and request path in the two internal bookkeeping headers. -/
def transformStartHeaders (version path : String) (asHtml : Bool)
    (hs : List (String × String)) : List (String × String) :=
  let h1 := setHeader hs "x-inertia" "true"
  let h2 :=
    if asHtml then
      setHeader h1 "content-type" "text/html"
    else
      let hj := setHeader h1 "content-type" "application/json"
      if hasHeader hj "x-inertia-partial-data"
          || hasHeader hj "x-inertia-partial-component" then hj
      else addVaryHeader hj "Accept"
  setHeader (setHeader h2 "x-inertia-internal-version" version)
    "x-inertia-internal-path" path

/-- `InertiaResponder.send` (`src/starlette_inertia/inertia.py`, lines
170-257), as a transition on `RespState` returning the frames passed to
the transport-level `send`.  A start frame is either rewritten to 303
(redirect coercion, forwarded immediately) or header-rewritten and
deferred; the first body frame must be final, and flushing it requires the
deferred start (`self.message`), whose absence is the Python
`AttributeError`; every other frame is forwarded untouched. -/
def send (ctx : SendCtx) (asHtml : Bool) (st : RespState) (msg : Message) :
    Except String (RespState × List Message) :=
  match msg with
  | .start status hs =>
    if redirectCoerce ctx.method status then
      match getHeader hs "location" with
      | none => .error "AttributeError: NoneType object has no attribute encode"
      | some loc => .ok (st, [.start 303 (setHeader hs "location" loc)])
    else
      .ok ({ st with
              message := some (.start status
                (transformStartHeaders ctx.inertiaVersion ctx.reqPath
                  asHtml hs)) }, [])
  | .body content moreBody hs =>
    if !st.started then
      if moreBody then
        .error "ValueError: Streaming responses are not supported."
      else
        let rendered :=
          if asHtml then
            let newBody := ctx.renderTemplate hs content
            let hs1 := removeHeader hs "x-inertia-internal-context"
            (newBody,
             setHeader hs1 "content-length" (toString newBody.utf8ByteSize))
          else (content, hs)
        match st.message with
        | none =>
          .error "AttributeError: InertiaResponder object has no attribute message"
        | some deferred =>
          .ok ({ st with started := true },
            [deferred, .body rendered.fst moreBody rendered.snd])
    else
      .ok (st, [msg])

/-- Feed a list of downstream frames through `send`, collecting the frames
that reach the transport and the first raised exception, if any (nothing
after an exception is sent). -/
def runEvents (ctx : SendCtx) (asHtml : Bool) :
    RespState → List Message → List Message × Option String
  | _, [] => ([], none)
  | st, m :: ms =>
    match send ctx asHtml st m with
    | .error e => ([], some e)
    | .ok (st', out) =>
      let rest := runEvents ctx asHtml st' ms
      (out ++ rest.fst, rest.snd)

/-- JSON string escaping as `json.dumps` performs it on the characters this
program actually emits (no control characters appear in any payload the
repository constructs). -/
def jsonEscapeChar (c : Char) : String :=
  if c == '\\' then "\\\\"
  else if c == '"' then "\\\""
  else String.singleton c

/-- Escape a string for inclusion in a JSON document. -/
def jsonEscape (s : String) : String :=
  String.join (s.data.map jsonEscapeChar)

/-- A JSON string literal. -/
def jsonStr (s : String) : String :=
  "\"" ++ jsonEscape s ++ "\""

/-- A JSON string literal or `null`, as `json.dumps` encodes an optional
string. -/
def jsonOptStr : Option String → String
  | none => "null"
  | some s => jsonStr s

/-- A JSON object of string-valued props, encoded as `json.dumps` does with
separators `(",", ":")`, in insertion order. -/
def jsonProps (props : List (String × String)) : String :=
  "\x7b" ++
    String.intercalate ","
      (props.map (fun p => jsonStr p.fst ++ ":" ++ jsonStr p.snd)) ++
  "\x7d"

/-- The wire payload built in `InertiaResponse.__call__`: the dict
`{"component": ..., "version": ..., "props": ..., "url": ...}` with exactly
those four keys, in that insertion order.  `version` and `url` come from
the internal bookkeeping headers and are `None` when those are absent. -/
structure PageObject where
  component : String
  version : Option String
  props : List (String × String)
  url : Option String
deriving DecidableEq

/-- The JSON encoding of the page object (`JSONResponse.render`, i.e.
`json.dumps` with separators `(",", ":")`). -/
def PageObject.render (p : PageObject) : String :=
  "\x7b" ++
    jsonStr "component" ++ ":" ++ jsonStr p.component ++ "," ++
    jsonStr "version" ++ ":" ++ jsonOptStr p.version ++ "," ++
    jsonStr "props" ++ ":" ++ jsonProps p.props ++ "," ++
    jsonStr "url" ++ ":" ++ jsonOptStr p.url ++
  "\x7d"

/-- The raw headers `InertiaResponse.__init__` computes: `render` is
overridden to defer rendering and return `b""`, so `init_headers` records
`content-length: 0`, followed by the JSONResponse media type. -/
def inertiaResponseInitHeaders : List (String × String) :=
  [("content-length", "0"), ("content-type", "application/json")]

/-- The interleaving of `InertiaResponse.__call__` with the wrapped
`InertiaResponder.send` (`src/starlette_inertia/inertia.py`, lines 31-59
and 170-257).  The response sends its start frame through `send`, which
mutates the shared raw-header list in place and defers the frame; the
response then reads the asset version and request path back out of that
same list, deletes the two internal bookkeeping headers from it (the
deferred frame sees the deletion, since the list is shared), renders the
page object, and sends the final body frame, which flushes the deferred
start followed by the body. -/
def inertiaResponseRun (ctx : SendCtx) (asHtml : Bool) (component : String)
    (props : List (String × String)) (status : Nat) :
    Except String (List Message) :=
  match send ctx asHtml initRespState
      (.start status inertiaResponseInitHeaders) with
  | .error e => .error e
  | .ok (st1, out1) =>
    match st1.message with
    | some (.start s hs) =>
      let version := getHeader hs "x-inertia-internal-version"
      let url := getHeader hs "x-inertia-internal-path"
      let hs2 := removeHeader (removeHeader hs "x-inertia-internal-version")
        "x-inertia-internal-path"
      let pageBody : String :=
        PageObject.render
          { component := component, version := version, props := props,
            url := url }
      match send ctx asHtml { st1 with message := some (.start s hs2) }
          (.body pageBody false []) with
      | .error e => .error e
      | .ok (_, out2) => .ok (out1 ++ out2)
    | _ =>
      -- unreachable: whenever `send` returns `.ok` on a start frame
      -- without coercing a redirect, it has deferred a start message
      .error "unreachable: send deferred the start event"

/-- Modelled from the spec: the requested-keys list of the partial-reload
filter.  The filter itself is absent from `src/starlette_inertia/inertia.py`
(line 239 is only a TODO comment), while the repository's tests exercise
it; this follows the spec — `X-Inertia-Partial-Data` is a comma-separated
key list, and a header that is absent or empty after parsing means no
filtering was requested. -/
def partialRequestedKeys (reqHeaders : List (String × String)) :
    List String :=
  match getHeader reqHeaders "x-inertia-partial-data" with
  | none => []
  | some s => (s.splitOn ",").filter (fun k => k != "")

/-- Modelled from the spec: the partial-reload filter, absent from
`src/starlette_inertia/inertia.py` (only the TODO at line 239 marks its
place).  Per the spec: if `X-Inertia-Partial-Component` equals the
handler-declared component name and at least one requested key is present,
retain only the props entries whose key is in the requested set (unmatched
keys are silently dropped); if the component does not match or no partial
headers are present, return the props unfiltered. -/
def partialProps (reqHeaders : List (String × String)) (component : String)
    (props : List (String × String)) : List (String × String) :=
  if (getHeader reqHeaders "x-inertia-partial-component" == some component)
      && !(partialRequestedKeys reqHeaders).isEmpty then
    props.filter (fun p => (partialRequestedKeys reqHeaders).contains p.fst)
  else
    props

/-- The JSON response pipeline with the spec-modelled partial-reload filter
applied to the handler props before page-object construction, as the spec
places it. -/
def inertiaResponsePartialRun (ctx : SendCtx) (component : String)
    (props : List (String × String)) (status : Nat) :
    Except String (List Message) :=
  inertiaResponseRun ctx false component
    (partialProps ctx.reqHeaders component props) status

/-! Concrete fixtures used by witnesses and counterexamples.  They mirror
the requests the repository's own test suite sends through the
`starlette.testclient.TestClient`. -/

/-- An identity stand-in for the configured jinja2 template. -/
def tmplId : List (String × String) → String → String := fun _ b => b

/-- A valid Inertia GET request with a matching asset version. -/
def reqOk : Request :=
  { method := "GET", path := "/", url := "http://testserver/",
    headers := [("host", "testserver"),
                ("x-requested-with", "XMLHttpRequest"),
                ("x-inertia", "true"),
                ("x-inertia-version", "foo")] }

/-- An Inertia GET request that carries no `x-inertia-version` header. -/
def reqStale : Request :=
  { method := "GET", path := "/", url := "http://testserver/",
    headers := [("host", "testserver"),
                ("x-requested-with", "XMLHttpRequest"),
                ("x-inertia", "true")] }

/-- An AJAX GET request without the Inertia marker header. -/
def reqNoMarker : Request :=
  { method := "GET", path := "/", url := "http://testserver/",
    headers := [("host", "testserver"),
                ("x-requested-with", "XMLHttpRequest")] }

/-- A valid Inertia GET request carrying both partial-reload headers. -/
def reqPartial : Request :=
  { method := "GET", path := "/", url := "http://testserver/",
    headers := [("host", "testserver"),
                ("x-requested-with", "XMLHttpRequest"),
                ("x-inertia", "true"),
                ("x-inertia-version", "foo"),
                ("x-inertia-partial-data", "foo"),
                ("x-inertia-partial-component", "Test")] }

/-- The send context of a PUT request, as used for redirect coercion. -/
def ctxPut : SendCtx :=
  { method := "PUT", inertiaVersion := "foo", reqPath := "/x",
    reqHeaders := [], renderTemplate := tmplId }

/-- The page object body emitted for component `Test`, props
`{"foo": "bar"}`, version `foo`, url `/`. -/
def pageBodyTest : String :=
  "\x7b\"component\":\"Test\",\"version\":\"foo\",\"props\":\x7b\"foo\":\"bar\"\x7d,\"url\":\"/\"\x7d"

/-! Helper lemmas about the header-list operations and about `send`. -/

theorem getHeader_cons (p : String × String) (t : List (String × String))
    (k : String) :
    getHeader (p :: t) k =
      if (p.fst == k) then some p.snd else getHeader t k := by
  cases h : (p.fst == k) with
  | true => simp [getHeader, List.find?_cons, h]
  | false => simp [getHeader, List.find?_cons, h]

theorem hasHeader_cons (p : String × String) (t : List (String × String))
    (k : String) :
    hasHeader (p :: t) k = ((p.fst == k) || hasHeader t k) := by
  simp [hasHeader, List.any_cons]

theorem removeHeader_cons (p : String × String) (t : List (String × String))
    (k : String) :
    removeHeader (p :: t) k =
      if (p.fst == k) then removeHeader t k else p :: removeHeader t k := by
  cases h : (p.fst == k) with
  | true => simp [removeHeader, List.filter_cons, bne, h]
  | false => simp [removeHeader, List.filter_cons, bne, h]

theorem getHeader_removeHeader_ne (t : List (String × String))
    (k k' : String) (h : k' ≠ k) :
    getHeader (removeHeader t k) k' = getHeader t k' := by
  induction t with
  | nil => rfl
  | cons q rest ih =>
    by_cases hq : q.fst = k
    · have hq' : (q.fst == k') = false := by
        simp [hq]
        exact fun hh => h hh.symm
      rw [removeHeader_cons, if_pos (by simp [hq]), ih,
        getHeader_cons, if_neg (by simp [hq'])]
    · rw [removeHeader_cons, if_neg (by simp [hq]), getHeader_cons,
        getHeader_cons, ih]

theorem hasHeader_removeHeader_ne (t : List (String × String))
    (k k' : String) (h : k' ≠ k) :
    hasHeader (removeHeader t k) k' = hasHeader t k' := by
  induction t with
  | nil => rfl
  | cons q rest ih =>
    by_cases hq : q.fst = k
    · have hq' : (q.fst == k') = false := by
        simp [hq]
        exact fun hh => h hh.symm
      rw [removeHeader_cons, if_pos (by simp [hq]), ih,
        hasHeader_cons, hq']
      simp
    · rw [removeHeader_cons, if_neg (by simp [hq]), hasHeader_cons,
        hasHeader_cons, ih]

theorem setHeader_cons (p : String × String) (t : List (String × String))
    (k v : String) :
    setHeader (p :: t) k v =
      if (p.fst == k) then (k, v) :: removeHeader t k
      else p :: setHeader t k v := rfl

theorem getHeader_setHeader_self (hs : List (String × String))
    (k v : String) :
    getHeader (setHeader hs k v) k = some v := by
  induction hs with
  | nil => simp [setHeader, getHeader]
  | cons p rest ih =>
    by_cases hp : (p.fst == k) = true
    · rw [setHeader_cons, if_pos hp, getHeader_cons, if_pos (by simp)]
    · simp only [Bool.not_eq_true] at hp
      rw [setHeader_cons, if_neg (by simp [hp]), getHeader_cons,
        if_neg (by simp [hp]), ih]

theorem getHeader_setHeader_ne (hs : List (String × String))
    (k k' v : String) (h : k' ≠ k) :
    getHeader (setHeader hs k v) k' = getHeader hs k' := by
  induction hs with
  | nil =>
    simp [setHeader, getHeader]
    exact fun hh => h hh.symm
  | cons p rest ih =>
    by_cases hp : (p.fst == k) = true
    · have hkk' : (k == k') = false := by
        simp
        exact fun hh => h hh.symm
      have hp' : p.fst = k := by simpa using hp
      rw [setHeader_cons, if_pos hp, getHeader_cons, if_neg (by simp [hkk']),
        getHeader_removeHeader_ne rest k k' h, getHeader_cons,
        if_neg (by simp [hp']; exact fun hh => h hh.symm)]
    · rw [setHeader_cons, if_neg hp, getHeader_cons, getHeader_cons, ih]

theorem hasHeader_setHeader_ne (hs : List (String × String))
    (k k' v : String) (h : k' ≠ k) :
    hasHeader (setHeader hs k v) k' = hasHeader hs k' := by
  induction hs with
  | nil =>
    simp [setHeader, hasHeader]
    exact fun hh => h hh.symm
  | cons p rest ih =>
    by_cases hp : (p.fst == k) = true
    · have hkk' : (k == k') = false := by
        simp
        exact fun hh => h hh.symm
      have hp' : p.fst = k := by simpa using hp
      rw [setHeader_cons, if_pos hp, hasHeader_cons, hkk',
        hasHeader_removeHeader_ne rest k k' h, hasHeader_cons, hp']
      simp [hkk']
    · rw [setHeader_cons, if_neg hp, hasHeader_cons, hasHeader_cons, ih]

/-- On a start frame whose status is not 302, `send` rewrites the headers
and defers the frame, emitting nothing yet. -/
theorem send_start_defer (ctx : SendCtx) (asHtml : Bool) (st : RespState)
    (status : Nat) (hs : List (String × String))
    (h : (status == 302) = false) :
    send ctx asHtml st (.start status hs) =
      .ok ({ st with
              message := some (.start status
                (transformStartHeaders ctx.inertiaVersion ctx.reqPath
                  asHtml hs)) }, []) := by
  simp [send, redirectCoerce, h]

/-- On the first, final body frame in JSON mode, `send` flushes the
deferred start frame followed by the body frame. -/
theorem send_body_flush (ctx : SendCtx) (st : RespState) (content : String)
    (hs : List (String × String)) (d : Message)
    (h1 : st.started = false) (h2 : st.message = some d) :
    send ctx false st (.body content false hs) =
      .ok ({ st with started := true }, [d, .body content false hs]) := by
  simp [send, h1, h2]

/-- The JSON response pipeline, evaluated for a 200 handler response: the
flushed start frame keeps `content-length: 0` (rendering was deferred, so
`init_headers` measured an empty body and nothing recomputes it on this
path), gains `x-inertia`, `application/json` and `Vary: Accept`, loses the
two internal bookkeeping headers, and the flushed body is the rendered
page object carrying the resolved version and the request path. -/
theorem inertiaResponseRun_json (ctx : SendCtx) (component : String)
    (props : List (String × String)) :
    inertiaResponseRun ctx false component props 200 =
      .ok [.start 200 [("content-length", "0"),
            ("content-type", "application/json"),
            ("x-inertia", "true"), ("vary", "Accept")],
           .body (PageObject.render
             { component := component, version := some ctx.inertiaVersion,
               props := props, url := some ctx.reqPath }) false []] := by
  have e1 := send_start_defer ctx false initRespState 200
    inertiaResponseInitHeaders (by decide)
  unfold inertiaResponseRun
  rw [e1]
  rfl

/-- Feeding a buffered two-frame response with a non-302 status through
the wrapped send defers and then flushes the rewritten start frame. -/
theorem runEvents_two_flush (ctx : SendCtx) (status : Nat)
    (hs : List (String × String)) (content : String)
    (h : (status == 302) = false) :
    runEvents ctx false initRespState
        [.start status hs, .body content false []] =
      ([.start status
          (transformStartHeaders ctx.inertiaVersion ctx.reqPath false hs),
        .body content false []], none) := by
  have e1 := send_start_defer ctx false initRespState status hs h
  have e2 := send_body_flush ctx
    { initRespState with
      message := some (.start status
        (transformStartHeaders ctx.inertiaVersion ctx.reqPath false hs)) }
    content []
    (.start status
      (transformStartHeaders ctx.inertiaVersion ctx.reqPath false hs))
    rfl rfl
  simp only [runEvents, e1, e2, List.nil_append, List.append_nil]

/-! The claims. -/

/-- C1 (counterexample): the claim says a request with an absent client
version is never treated as stale, but `InertiaMiddleware.__call__` in
`src/starlette_inertia/inertia.py` compares `request.headers.get(...)`,
which is `None` for an absent header, directly against the server version,
so a valid Inertia GET request without `x-inertia-version` is
short-circuited with the 409 stale response — the behaviour the
repository's own tests expect. -/
theorem c1_absent_version_goes_stale_counterexample :
    getHeader reqStale.headers "x-inertia-version" = none ∧
    middlewareClassify "foo" reqStale =
      .stale409 "http://testserver/" ∧
    middlewareShortCircuit "foo" reqStale =
      some (stale409Events "http://testserver/") :=
  ⟨rfl, rfl, rfl⟩

/-- C1 (amended): for a valid Inertia GET request, the 409 stale
short-circuit with body "Inertia version does not match" is produced
exactly when the client-declared `x-inertia-version` differs from the
resolved server version, where an absent or empty client header compares
unequal to every server version and is therefore treated as stale; a
matching client version passes the request through to the downstream
application. -/
theorem c1_stale_iff_version_differs (v : String) (req : Request)
    (hA : getHeader req.headers "x-requested-with" = some "XMLHttpRequest")
    (hI : truthyHeader (getHeader req.headers "x-inertia") = true)
    (hG : req.method = "GET") :
    (middlewareClassify v req = .stale409 req.url ↔
      getHeader req.headers "x-inertia-version" ≠ some v) ∧
    (getHeader req.headers "x-inertia-version" = some v →
      middlewareClassify v req = .passThrough) ∧
    (getHeader req.headers "x-inertia-version" ≠ some v →
      middlewareShortCircuit v req = some (stale409Events req.url)) := by
  by_cases hv : getHeader req.headers "x-inertia-version" = some v
  · have hc : middlewareClassify v req = .passThrough := by
      simp [middlewareClassify, hA, hI, hG, hv]
    refine ⟨by rw [hc]; simp [hv], fun _ => hc, fun hne => absurd hv hne⟩
  · have hbne : (getHeader req.headers "x-inertia-version" != some v)
        = true := by
      simpa [bne_iff_ne] using hv
    have hc : middlewareClassify v req = .stale409 req.url := by
      simp [middlewareClassify, hA, hI, hG, hbne]
    refine ⟨by rw [hc]; simp [hv], fun he => absurd he hv, fun _ => ?_⟩
    simp [middlewareShortCircuit, hc]

/-- C1 (witness): a valid Inertia GET request with no client version is
classified stale against server version "foo". -/
theorem c1_stale_iff_version_differs_witness :
    middlewareClassify "foo" reqStale = .stale409 reqStale.url :=
  (c1_stale_iff_version_differs "foo" reqStale rfl rfl rfl).1.mpr
    (by decide)

/-- C2: when the response is emitted as JSON, the emitted page object
carries exactly the handler props filtered to the requested keys when
`x-inertia-partial-component` equals the handler component and at least
one key was requested (keys absent from the props are silently dropped by
the filter), and the unfiltered props otherwise.  The filter itself is
modelled from the spec, since `src/starlette_inertia/inertia.py` holds
only a TODO where it belongs. -/
theorem c2_partial_reload_filtering (v : String) (req : Request)
    (tmpl : List (String × String) → String → String)
    (component : String) (props : List (String × String)) :
    inertiaResponsePartialRun (ctxOf v req tmpl) component props 200 =
      .ok [.start 200 [("content-length", "0"),
            ("content-type", "application/json"),
            ("x-inertia", "true"), ("vary", "Accept")],
           .body (PageObject.render
             { component := component, version := some v,
               props :=
                 if (getHeader req.headers "x-inertia-partial-component"
                        == some component)
                     && !(partialRequestedKeys req.headers).isEmpty then
                   props.filter (fun p =>
                     (partialRequestedKeys req.headers).contains p.fst)
                 else props,
               url := some req.path }) false []] :=
  inertiaResponseRun_json (ctxOf v req tmpl) component
    (partialProps req.headers component props)

/-- C3 (code bug): a PUT request whose handler emits Start(302) with a
Location header is coerced to a Start(303) frame with the unchanged
Location value, but the handler's following body event is NOT forwarded:
the redirect branch of `InertiaResponder.send` never assigns
`self.message`, so flushing the body dereferences the missing attribute
and raises AttributeError, aborting the response. -/
theorem c3_redirect_coercion_then_body_crashes :
    runEvents ctxPut false initRespState
        [.start 302 [("location", "/next")], .body "" false []] =
      ([.start 303 [("location", "/next")]],
       some "AttributeError: InertiaResponder object has no attribute message") :=
  rfl

/-- C4: for a valid Inertia request with matching version answered by the
handler with status 200, the flushed response carries
`content-type: application/json` and its body is the serialized page
object with exactly the keys component, version, props, url — component
the handler-declared name, version the resolved server version, url the
request path. -/
theorem c4_json_page_object (v : String) (req : Request)
    (tmpl : List (String × String) → String → String)
    (component : String) (props : List (String × String))
    (_h : middlewareClassify v req = .passThrough) :
    inertiaResponseRun (ctxOf v req tmpl) false component props 200 =
      .ok [.start 200 [("content-length", "0"),
            ("content-type", "application/json"),
            ("x-inertia", "true"), ("vary", "Accept")],
           .body (PageObject.render
             { component := component, version := some v, props := props,
               url := some req.path }) false []] :=
  inertiaResponseRun_json (ctxOf v req tmpl) component props

/-- C4 (witness): the end-to-end scenario of the spec — GET "/" with
matching version "foo", component "Test", props `{"foo": "bar"}`. -/
theorem c4_json_page_object_witness :
    middlewareClassify "foo" reqOk = .passThrough ∧
    inertiaResponseRun (ctxOf "foo" reqOk tmplId) false "Test"
        [("foo", "bar")] 200 =
      .ok [.start 200 [("content-length", "0"),
            ("content-type", "application/json"),
            ("x-inertia", "true"), ("vary", "Accept")],
           .body (PageObject.render
             { component := "Test", version := some "foo",
               props := [("foo", "bar")], url := some "/" }) false []] :=
  ⟨rfl, c4_json_page_object "foo" reqOk tmplId "Test" [("foo", "bar")] rfl⟩

/-- C5 (counterexample): the claim says any event received after the
final body has been flushed fails fast and is never forwarded, but the
final `else` of `InertiaResponder.send` forwards it: a third frame sent
after completion reaches the transport unmodified and no error is
raised. -/
theorem c5_extra_event_forwarded_counterexample :
    runEvents (ctxOf "foo" reqOk tmplId) false initRespState
        [.start 200 [], .body "x" false [], .body "y" false []] =
      ([.start 200 [("x-inertia", "true"),
          ("content-type", "application/json"), ("vary", "Accept"),
          ("x-inertia-internal-version", "foo"),
          ("x-inertia-internal-path", "/")],
        .body "x" false [], .body "y" false []], none) :=
  rfl

/-- C5 (amended): after the deferred start and the final body have been
flushed (`self.started` is set), a further body event is forwarded to the
transport unmodified — there is no fail-fast for post-completion
events. -/
theorem c5_post_completion_body_forwarded (ctx : SendCtx) (asHtml : Bool)
    (st : RespState) (content : String) (moreBody : Bool)
    (hs : List (String × String)) (h : st.started = true) :
    send ctx asHtml st (.body content moreBody hs) =
      .ok (st, [.body content moreBody hs]) := by
  simp [send, h]

/-- C5 (witness): a completed responder forwards an extra body frame. -/
theorem c5_post_completion_body_forwarded_witness :
    send (ctxOf "foo" reqOk tmplId) false
        { started := true, message := none } (.body "y" false []) =
      .ok ({ started := true, message := none }, [.body "y" false []]) :=
  c5_post_completion_body_forwarded (ctxOf "foo" reqOk tmplId) false
    { started := true, message := none } "y" false [] rfl

/-- C6 (counterexample): the claim says `Accept` is added to `Vary` iff
the REQUEST carries no partial-reload headers, but the code tests the
response message headers it is rewriting: a request that does carry
`x-inertia-partial-data` still gets `Vary: Accept` on its deferred start
frame, because handler response headers never contain the partial header
names. -/
theorem c6_vary_added_despite_partial_request_counterexample :
    getHeader reqPartial.headers "x-inertia-partial-data" = some "foo" ∧
    send (ctxOf "foo" reqPartial tmplId) false initRespState
        (.start 200 [("content-length", "0"),
          ("content-type", "application/json")]) =
      .ok ({ started := false,
             message := some (.start 200
               [("content-length", "0"),
                ("content-type", "application/json"),
                ("x-inertia", "true"), ("vary", "Accept"),
                ("x-inertia-internal-version", "foo"),
                ("x-inertia-internal-path", "/")]) }, []) :=
  ⟨rfl, rfl⟩

/-- C6 (amended): when the transformer rewrites a non-redirect start frame
in JSON mode, it adds `Accept` to the `Vary` header (joining an existing
value with a comma) iff the START FRAME's own header list carries neither
`x-inertia-partial-data` nor `x-inertia-partial-component`; the request
headers are never consulted. -/
theorem c6_vary_tracks_response_headers (version path : String)
    (hs : List (String × String)) :
    getHeader (transformStartHeaders version path false hs) "vary" =
      if hasHeader hs "x-inertia-partial-data"
          || hasHeader hs "x-inertia-partial-component" then
        getHeader hs "vary"
      else
        some (addVaryValue (getHeader hs "vary") "Accept") := by
  have hd : hasHeader (setHeader (setHeader hs "x-inertia" "true")
      "content-type" "application/json") "x-inertia-partial-data"
      = hasHeader hs "x-inertia-partial-data" := by
    rw [hasHeader_setHeader_ne _ _ _ _ (by decide),
      hasHeader_setHeader_ne _ _ _ _ (by decide)]
  have hcmp : hasHeader (setHeader (setHeader hs "x-inertia" "true")
      "content-type" "application/json") "x-inertia-partial-component"
      = hasHeader hs "x-inertia-partial-component" := by
    rw [hasHeader_setHeader_ne _ _ _ _ (by decide),
      hasHeader_setHeader_ne _ _ _ _ (by decide)]
  have hv : getHeader (setHeader (setHeader hs "x-inertia" "true")
      "content-type" "application/json") "vary" = getHeader hs "vary" := by
    rw [getHeader_setHeader_ne _ _ _ _ (by decide),
      getHeader_setHeader_ne _ _ _ _ (by decide)]
  unfold transformStartHeaders
  simp only [Bool.false_eq_true, if_false]
  rw [getHeader_setHeader_ne _ _ _ _ (by decide),
    getHeader_setHeader_ne _ _ _ _ (by decide), hd, hcmp]
  by_cases hc : (hasHeader hs "x-inertia-partial-data"
      || hasHeader hs "x-inertia-partial-component") = true
  · rw [if_pos hc, if_pos hc]
    exact hv
  · rw [if_neg hc, if_neg hc]
    unfold addVaryHeader
    rw [getHeader_setHeader_self, hv]

/-- C7 (code bug): on the JSON path, the Content-Length of the flushed
start frame is the "0" computed by `init_headers` before rendering was
deferred, while the flushed body is the 68-byte page object — the
deferral comment in the source says the frame is held back precisely to
fix up the content length, but the JSON branch never does. -/
theorem c7_content_length_not_recomputed :
    inertiaResponseRun (ctxOf "foo" reqOk tmplId) false "Test"
        [("foo", "bar")] 200 =
      .ok [.start 200 [("content-length", "0"),
            ("content-type", "application/json"),
            ("x-inertia", "true"), ("vary", "Accept")],
           .body pageBodyTest false []] ∧
    pageBodyTest.utf8ByteSize = 68 ∧
    toString pageBodyTest.utf8ByteSize ≠ "0" :=
  ⟨rfl, rfl, by decide⟩

/-- C8: an AJAX request (x-requested-with: XMLHttpRequest) whose
`x-inertia` header is absent or empty is answered locally with status 400
and plain-text body "Inertia headers not found.", regardless of any other
headers, and the downstream application is never invoked. -/
theorem c8_missing_marker_400 (v : String) (req : Request)
    (hA : getHeader req.headers "x-requested-with" = some "XMLHttpRequest")
    (hI : truthyHeader (getHeader req.headers "x-inertia") = false) :
    middlewareClassify v req = .missingHeader400 ∧
    middlewareShortCircuit v req = some missing400Events ∧
    downstreamCalled (middlewareClassify v req) = false ∧
    missing400Events =
      [.start 400 [("content-length", "26"),
          ("content-type", "text/plain; charset=utf-8")],
       .body "Inertia headers not found." false []] := by
  have hc : middlewareClassify v req = .missingHeader400 := by
    simp [middlewareClassify, hA, hI]
  exact ⟨hc, by simp [middlewareShortCircuit, hc],
    by rw [hc]; rfl, rfl⟩

/-- C8 (witness): an AJAX GET request with no `x-inertia` header. -/
theorem c8_missing_marker_400_witness :
    middlewareClassify "foo" reqNoMarker = .missingHeader400 ∧
    middlewareShortCircuit "foo" reqNoMarker = some missing400Events ∧
    downstreamCalled (middlewareClassify "foo" reqNoMarker) = false ∧
    missing400Events =
      [.start 400 [("content-length", "26"),
          ("content-type", "text/plain; charset=utf-8")],
       .body "Inertia headers not found." false []] :=
  c8_missing_marker_400 "foo" reqNoMarker rfl rfl

/-- C9: if the first body frame the transformer receives is non-final
(`more_body` true), it raises ValueError and aborts the response: no
frame is forwarded or wrapped. -/
theorem c9_streaming_first_chunk_fails (ctx : SendCtx) (asHtml : Bool)
    (st : RespState) (content : String) (hs : List (String × String))
    (h : st.started = false) :
    send ctx asHtml st (.body content true hs) =
      .error "ValueError: Streaming responses are not supported." := by
  simp [send, h]

/-- C9 (witness): a fresh responder rejects a chunked first body frame. -/
theorem c9_streaming_first_chunk_fails_witness :
    send (ctxOf "foo" reqOk tmplId) false initRespState
        (.body "partial chunk" true []) =
      .error "ValueError: Streaming responses are not supported." :=
  c9_streaming_first_chunk_fails (ctxOf "foo" reqOk tmplId) false
    initRespState "partial chunk" [] rfl

/-- C10: the middleware's locally produced 400 and 409 responses are
routed through the wrapped send path, so they reach the client carrying
`x-inertia: true`, their Content-Type overwritten to `application/json`
despite the plain-text bodies, and with the internal bookkeeping headers
`x-inertia-internal-version` and `x-inertia-internal-path` still present
(only `InertiaResponse.__call__` strips those, and these bodies are plain
starlette responses). -/
theorem c10_short_circuit_headers (v : String) (req : Request)
    (tmpl : List (String × String) → String → String) :
    runEvents (ctxOf v req tmpl) false initRespState missing400Events =
      ([.start 400 [("content-length", "26"),
          ("content-type", "application/json"),
          ("x-inertia", "true"), ("vary", "Accept"),
          ("x-inertia-internal-version", v),
          ("x-inertia-internal-path", req.path)],
        .body "Inertia headers not found." false []], none) ∧
    runEvents (ctxOf v req tmpl) false initRespState
        (stale409Events req.url) =
      ([.start 409 [("x-inertia-location", req.url),
          ("content-length", "30"),
          ("content-type", "application/json"),
          ("x-inertia", "true"), ("vary", "Accept"),
          ("x-inertia-internal-version", v),
          ("x-inertia-internal-path", req.path)],
        .body "Inertia version does not match" false []], none) := by
  constructor
  · exact runEvents_two_flush (ctxOf v req tmpl) 400
      [("content-length", "26"),
       ("content-type", "text/plain; charset=utf-8")]
      "Inertia headers not found." (by decide)
  · exact runEvents_two_flush (ctxOf v req tmpl) 409
      [("x-inertia-location", req.url), ("content-length", "30"),
       ("content-type", "text/plain; charset=utf-8")]
      "Inertia version does not match" (by decide)

end StarletteInertia
